import Mathlib

/-!
Verification of the text-to-speech podcast generator (Flask app `app.py` and
interactive `podcast_cli.py`) against its natural-language specification.

Python strings are modelled as `List Char`; machine I/O (the output folder) is
modelled as an explicit association list from paths to byte lists, and the
remote synthesis provider as a function parameter, so that every provider
call a handler issues is recorded in an explicit call list.

The regex substitutions of `add_ssml_pauses` are modelled by left-to-right
scans: `re.sub` tries a match at each position, and on a match of
`([.!?])\s+` (resp. `(,)\s+`) the greedy `\s+` consumes the maximal
whitespace run, the replacement emits the captured character followed by the
break tag and a single space, and the scan resumes after the match.  `\s` is
modelled by its ASCII subset (space, tab, newline, carriage return, vertical
tab, form feed); none of the properties below exercise non-ASCII whitespace,
and Python's `str.strip` uses the same character class.
-/

/-- Whitespace class used by both the regex `\s` and `str.strip`
(ASCII subset). -/
def isPyWs (c : Char) : Bool :=
  c == ' ' || c == '\t' || c == '\n' || c == '\r' || c == '\x0b' || c == '\x0c'

/-- Sentence-terminal punctuation `[.!?]` from the first substitution in
`add_ssml_pauses` (app.py line 58). -/
def isSentenceEnd (c : Char) : Bool :=
  c == '.' || c == '!' || c == '?'

/-- Comma class `(,)` from the second substitution in `add_ssml_pauses`
(app.py line 59). -/
def isComma (c : Char) : Bool :=
  c == ','

/-- Does the list start with a whitespace character?  This is what decides
whether `\s+` can match right after a captured punctuation character. -/
def wsHead : List Char → Bool
  | [] => false
  | d :: _ => isPyWs d

/-- Replacement tail for the sentence rule: the text the substitution emits
after the captured punctuation character (break tag plus one space). -/
def br500 : List Char := ("<break time=\"500ms\"/> ").data

/-- Replacement tail for the comma rule. -/
def br300 : List Char := ("<break time=\"300ms\"/> ").data

/-- Python `str.strip()`: drop whitespace from both ends. -/
def pyStrip (l : List Char) : List Char :=
  ((l.dropWhile isPyWs).reverse.dropWhile isPyWs).reverse

/-- First substitution of `add_ssml_pauses` (app.py line 58):
`re.sub` of the pattern `([.!?])\s+` with the punctuation kept, the
whitespace run consumed, and the break tag plus one space emitted. -/
def sub500 : List Char → List Char
  | [] => []
  | c :: rest =>
    if isSentenceEnd c && wsHead rest then
      c :: (br500 ++ sub500 (rest.dropWhile isPyWs))
    else
      c :: sub500 rest
termination_by l => l.length
decreasing_by
  all_goals simp only [List.length_cons]
  all_goals try omega
  all_goals exact Nat.lt_succ_of_le (List.Sublist.length_le (List.dropWhile_sublist isPyWs))

/-- Second substitution of `add_ssml_pauses` (app.py line 59): pattern
`(,)\s+`, same shape with the 300ms tag. -/
def sub300 : List Char → List Char
  | [] => []
  | c :: rest =>
    if isComma c && wsHead rest then
      c :: (br300 ++ sub300 (rest.dropWhile isPyWs))
    else
      c :: sub300 rest
termination_by l => l.length
decreasing_by
  all_goals simp only [List.length_cons]
  all_goals try omega
  all_goals exact Nat.lt_succ_of_le (List.Sublist.length_le (List.dropWhile_sublist isPyWs))

/-- `PodcastGenerator.add_ssml_pauses` (app.py lines 56-60): the sentence
substitution followed by the comma substitution on its output. -/
def add_ssml_pauses (text : List Char) : List Char :=
  sub300 (sub500 text)

/-- The instance attribute `self.ssml_wrapper` applied by `.format`
(app.py lines 29 and 66). -/
def ssml_wrapper (inner : List Char) : List Char :=
  ("<speak>").data ++ inner ++ ("</speak>").data

/-- `PodcastGenerator.create_ssml_with_prosody` (app.py lines 62-66). -/
def create_ssml_with_prosody (text rate pitch : List Char) : List Char :=
  ssml_wrapper
    (("<prosody rate=\"").data ++ rate ++ ("\" pitch=\"").data ++ pitch
      ++ ("\">").data ++ add_ssml_pauses text ++ ("</prosody>").data)

/-- Bare 500ms pause marker, without the trailing space of the replacement. -/
def tag500 : List Char := ("<break time=\"500ms\"/>").data

/-- Bare 300ms pause marker. -/
def tag300 : List Char := ("<break time=\"300ms\"/>").data

/-- Modelled from the claim's words (spec section 8, claim C2): the content is
the input text itself with exactly one pause marker inserted after every
sentence-terminal punctuation mark that is followed by whitespace, one
shorter marker after every comma followed by whitespace, and nothing else
changed — in particular the whitespace of the input is preserved. -/
def pauseInsertionClaim : List Char → List Char
  | [] => []
  | c :: rest =>
    if isSentenceEnd c && wsHead rest then
      c :: (tag500 ++ pauseInsertionClaim rest)
    else if isComma c && wsHead rest then
      c :: (tag300 ++ pauseInsertionClaim rest)
    else
      c :: pauseInsertionClaim rest

/-- Single-pass specification of the pause transformation (the amended claim
C2): after every sentence-terminal punctuation mark followed by whitespace,
emit one 500ms marker and replace the whole whitespace run by a single space
(which is the trailing space of `br500`); after every comma followed by
whitespace, likewise with one 300ms marker; every other character is copied
unchanged and no other marker is introduced. -/
def pauseInsertionSpec : List Char → List Char
  | [] => []
  | c :: rest =>
    if isSentenceEnd c && wsHead rest then
      c :: (br500 ++ pauseInsertionSpec (rest.dropWhile isPyWs))
    else if isComma c && wsHead rest then
      c :: (br300 ++ pauseInsertionSpec (rest.dropWhile isPyWs))
    else
      c :: pauseInsertionSpec rest
termination_by l => l.length
decreasing_by
  all_goals simp only [List.length_cons]
  all_goals try omega
  all_goals exact Nat.lt_succ_of_le (List.Sublist.length_le (List.dropWhile_sublist isPyWs))


/-! Data model for the stateful parts: the output folder as an explicit
store, the Polly client as a function parameter, and the wall-clock
timestamp as an explicit argument. -/

/-- The output folder, as an association list from file paths to the byte
lists written there; a fresh write shadows older entries. -/
structure FS where
  store : List (List Char × List Nat)
deriving DecidableEq

/-- Writing a file (`open(path,'wb'); f.write(bytes)`). -/
def FS.write (fs : FS) (path : List Char) (bytes : List Nat) : FS :=
  ⟨(path, bytes) :: fs.store⟩

/-- Reading a file back. -/
def FS.read (fs : FS) (path : List Char) : Option (List Nat) :=
  match fs.store.find? (fun e => e.fst == path) with
  | some e => some e.snd
  | none => none

/-- `os.path.getsize`: the size of the file at `path`, or `none` when the
file does not exist (in Python that case raises, caught by the surrounding
`except`). -/
def FS.getsize (fs : FS) (path : List Char) : Option Nat :=
  (fs.read path).map List.length

/-- Keyword arguments passed to `polly_client.synthesize_speech`. -/
structure SynthCall where
  Text : List Char
  TextType : Option (List Char)
  OutputFormat : List Char
  VoiceId : List Char
  Engine : List Char
deriving DecidableEq

/-- Outcome of the remote synthesis call: the audio byte stream, or a
provider exception with its message. -/
inductive SynthResult
  | ok (audio : List Nat)
  | err (msg : List Char)
deriving DecidableEq

/-- Return value of `PodcastGenerator.generate_audio` (app.py lines 100-111):
the success dictionary, or the `success: False` dictionary built in the
`except` clause. -/
inductive GenAudioResult
  | ok (filename path : List Char) (size : Nat)
  | fail (error : List Char)
deriving DecidableEq

/-- `PodcastGenerator.generate_audio` (app.py lines 68-111).  The remote
client is the parameter `synth`, the current timestamp string the parameter
`timestamp`, and the function also returns the updated store and the list of
synthesis calls it issued. -/
def generate_audio (synth : SynthCall → SynthResult) (fs : FS)
    (timestamp : List Char) (text : List Char) (voice_id : List Char)
    (engine : List Char) (use_ssml : Bool) (rate pitch : List Char) :
    GenAudioResult × FS × List SynthCall :=
  let filename :=
    ("podcast_").data ++ voice_id ++ ("_").data ++ timestamp ++ (".mp3").data
  let output_path := ("output/").data ++ filename
  let call : SynthCall :=
    if use_ssml then
      { Text := create_ssml_with_prosody text rate pitch
        TextType := some (("ssml").data)
        OutputFormat := ("mp3").data
        VoiceId := voice_id
        Engine := engine }
    else
      { Text := text
        TextType := none
        OutputFormat := ("mp3").data
        VoiceId := voice_id
        Engine := engine }
  match synth call with
  | SynthResult.ok audio =>
    let fs2 := fs.write output_path audio
    match fs2.getsize output_path with
    | some file_size => (GenAudioResult.ok filename output_path file_size, fs2, [call])
    | none => (GenAudioResult.fail (("getsize failed").data), fs2, [call])
  | SynthResult.err m => (GenAudioResult.fail m, fs, [call])

/-- JSON body of a `POST /api/generate` request: each field is present or
absent (`data.get` supplies the default when absent). -/
structure GenRequest where
  text : Option (List Char)
  voice : Option (List Char)
  engine : Option (List Char)
  useSSML : Option Bool
  rate : Option (List Char)
  pitch : Option (List Char)
deriving DecidableEq

/-- Validation failures of the generate endpoint (spec taxonomy `EmptyText`
and `TextTooLong`; the code renders them as the messages
'No text provided' and the f-string of line 148, whose parameters the
`TextTooLong` constructor records). -/
inductive ApiError
  | EmptyText
  | TextTooLong (max_chars : Nat) (engine : List Char)
deriving DecidableEq

/-- JSON responses of the generate endpoint: HTTP 400 with a validation
error, HTTP 500 with a provider error message, or HTTP 200 with
`success: true`, the filename, the size and the download URL. -/
inductive Response
  | badRequest (e : ApiError)
  | serverError (msg : List Char)
  | ok (filename : List Char) (size : Nat) (downloadUrl : List Char)
deriving DecidableEq

/-- The request parameters after the `data.get` defaults of app.py lines
133-138 have been applied. -/
structure Params where
  text : List Char
  voice_id : List Char
  engine : List Char
  use_ssml : Bool
  rate : List Char
  pitch : List Char
deriving DecidableEq

/-- Lines 133-138 of `generate_podcast`: extract each field with its
default; the text is stripped as part of extraction. -/
def parse_request (data : GenRequest) : Params :=
  { text := pyStrip (data.text.getD [])
    voice_id := data.voice.getD (("Joanna").data)
    engine := data.engine.getD (("neural").data)
    use_ssml := data.useSSML.getD false
    rate := data.rate.getD (("medium").data)
    pitch := data.pitch.getD (("medium").data) }

/-- Line 144: `max_chars = 3000 if engine == 'neural' else 6000`. -/
def max_chars (engine : List Char) : Nat :=
  if engine = ("neural").data then 3000 else 6000

/-- The `/api/generate` handler `generate_podcast` (app.py lines 127-165):
apply defaults, reject empty text (line 140) and over-long text (line 145)
locally, otherwise run `generate_audio` and translate its result into the
HTTP response. -/
def generate_podcast (synth : SynthCall → SynthResult) (fs : FS)
    (timestamp : List Char) (data : GenRequest) :
    Response × FS × List SynthCall :=
  let p := parse_request data
  if p.text = [] then
    (Response.badRequest ApiError.EmptyText, fs, [])
  else if max_chars p.engine < p.text.length then
    (Response.badRequest (ApiError.TextTooLong (max_chars p.engine) p.engine), fs, [])
  else
    match generate_audio synth fs timestamp p.text p.voice_id p.engine
        p.use_ssml p.rate p.pitch with
    | (GenAudioResult.ok filename _ size, fs2, calls) =>
      (Response.ok filename size (("/download/").data ++ filename), fs2, calls)
    | (GenAudioResult.fail m, fs2, calls) => (Response.serverError m, fs2, calls)

namespace CLI

/-- Return value of `PodcastCLI.generate_audio` (podcast_cli.py lines
211-244): the too-long warning (line 224), the success report (lines
239-241), or the caught exception (line 244). -/
inductive Outcome
  | tooLong (textLen maxChars : Nat)
  | done (path : List Char) (size : Nat)
  | failed (msg : List Char)
deriving DecidableEq

/-- `PodcastCLI.generate_audio` (podcast_cli.py lines 211-244): the length
gate of lines 222-226 runs before the synthesis call of line 228; the audio
is then written to `output_file` and its size read back. -/
def generate_audio (synth : SynthCall → SynthResult) (fs : FS)
    (text output_file voice_id engine : List Char) :
    Outcome × FS × List SynthCall :=
  if (if engine = ("neural").data then 3000 else 6000) < text.length then
    (Outcome.tooLong text.length (if engine = ("neural").data then 3000 else 6000), fs, [])
  else
    let call : SynthCall :=
      { Text := text
        TextType := none
        OutputFormat := ("mp3").data
        VoiceId := voice_id
        Engine := engine }
    match synth call with
    | SynthResult.ok audio =>
      let fs2 := fs.write output_file audio
      match fs2.getsize output_file with
      | some file_size => (Outcome.done output_file file_size, fs2, [call])
      | none => (Outcome.failed (("getsize failed").data), fs2, [call])
    | SynthResult.err m => (Outcome.failed m, fs, [call])

end CLI

/-- Filename built at app.py line 74: `podcast_{voice_id}_{timestamp}.mp3`. -/
def audioFilename (voice_id ts : List Char) : List Char :=
  ("podcast_").data ++ voice_id ++ ("_").data ++ ts ++ (".mp3").data

/-- Output path built at line 75: `os.path.join('output', filename)`. -/
def audioPath (voice_id ts : List Char) : List Char :=
  ("output/").data ++ audioFilename voice_id ts

/-- The single request `generate_audio` fires at the provider, as a function
of its arguments (the `if` mirrors the `use_ssml` branch of lines 77-92). -/
def audioCall (text voice_id engine : List Char) (use_ssml : Bool)
    (rate pitch : List Char) : SynthCall :=
  if use_ssml then
    { Text := create_ssml_with_prosody text rate pitch
      TextType := some (("ssml").data)
      OutputFormat := ("mp3").data
      VoiceId := voice_id
      Engine := engine }
  else
    { Text := text
      TextType := none
      OutputFormat := ("mp3").data
      VoiceId := voice_id
      Engine := engine }



/-! Basic facts about the character classes. -/

theorem ws_not_sentenceEnd {c : Char} (h : isPyWs c = true) : isSentenceEnd c = false := by
  simp only [isPyWs, Bool.or_eq_true, beq_iff_eq] at h
  rcases h with ((((h | h) | h) | h) | h) | h <;> subst h <;> rfl

theorem ws_not_comma {c : Char} (h : isPyWs c = true) : isComma c = false := by
  simp only [isPyWs, Bool.or_eq_true, beq_iff_eq] at h
  rcases h with ((((h | h) | h) | h) | h) | h <;> subst h <;> rfl

theorem sentenceEnd_not_comma {c : Char} (h : isSentenceEnd c = true) : isComma c = false := by
  simp only [isSentenceEnd, Bool.or_eq_true, beq_iff_eq] at h
  rcases h with (h | h) | h <;> subst h <;> rfl

/-! Shape lemmas about the two substitution passes. -/

/-- The first pass never changes the first character of the text. -/
theorem wsHead_sub500 (l : List Char) : wsHead (sub500 l) = wsHead l := by
  cases l with
  | nil => simp [sub500]
  | cons c rest =>
    rw [sub500]
    cases h : isSentenceEnd c && wsHead rest <;> simp [wsHead]

/-- The first pass commutes with dropping a leading whitespace run. -/
theorem sub500_dropWhile (l : List Char) :
    (sub500 l).dropWhile isPyWs = sub500 (l.dropWhile isPyWs) := by
  induction l with
  | nil => simp [sub500]
  | cons c rest ih =>
    by_cases hc : isPyWs c = true
    · rw [sub500]
      rw [ws_not_sentenceEnd hc]
      simp only [Bool.false_and, if_neg Bool.false_ne_true]
      rw [List.dropWhile_cons_of_pos hc, List.dropWhile_cons_of_pos hc]
      exact ih
    · rw [List.dropWhile_cons_of_neg hc, sub500]
      cases h : isSentenceEnd c && wsHead rest <;>
        simp [List.dropWhile_cons_of_neg hc]

/-- The second pass lets any comma-free block pass through unchanged. -/
theorem sub300_append_of_no_comma (a x : List Char)
    (h : ∀ c ∈ a, isComma c = false) : sub300 (a ++ x) = a ++ sub300 x := by
  induction a with
  | nil => rfl
  | cons c a ih =>
    rw [List.cons_append, sub300]
    rw [h c (List.mem_cons_self c a)]
    simp only [Bool.false_and, if_neg Bool.false_ne_true, List.cons_append]
    rw [ih (fun d hd => h d (List.mem_cons_of_mem c hd))]

/-- The first pass lets any block free of sentence punctuation pass through
unchanged. -/
theorem sub500_append_of_no_sentenceEnd (a x : List Char)
    (h : ∀ c ∈ a, isSentenceEnd c = false) : sub500 (a ++ x) = a ++ sub500 x := by
  induction a with
  | nil => rfl
  | cons c a ih =>
    rw [List.cons_append, sub500]
    rw [h c (List.mem_cons_self c a)]
    simp only [Bool.false_and, if_neg Bool.false_ne_true, List.cons_append]
    rw [ih (fun d hd => h d (List.mem_cons_of_mem c hd))]

/-- Fusion of the two regex passes of `add_ssml_pauses` into the single-pass
specification: running the comma pass over the output of the sentence pass
inserts exactly the markers the one-pass description prescribes. -/
theorem add_ssml_pauses_eq_spec (l : List Char) :
    add_ssml_pauses l = pauseInsertionSpec l := by
  rw [add_ssml_pauses]
  induction l using pauseInsertionSpec.induct with
  | case1 => simp [sub500, sub300, pauseInsertionSpec]
  | case2 c rest h ih =>
    have hse : isSentenceEnd c = true := by
      cases hx : isSentenceEnd c
      · rw [hx, Bool.false_and] at h; exact absurd h Bool.false_ne_true
      · rfl
    rw [sub500, if_pos h, pauseInsertionSpec, if_pos h, sub300]
    rw [sentenceEnd_not_comma hse]
    simp only [Bool.false_and, if_neg Bool.false_ne_true]
    rw [sub300_append_of_no_comma br500 _ (by decide), ih]
  | case3 c rest h1 h2 ih =>
    have hrest : wsHead rest = true := by
      cases hx : wsHead rest
      · rw [hx, Bool.and_false] at h2; exact absurd h2 Bool.false_ne_true
      · rfl
    have hc : isSentenceEnd c = false := by
      cases hx : isSentenceEnd c
      · rfl
      · exact absurd (by rw [hx, hrest]; rfl) h1
    rw [sub500]
    rw [if_neg h1]
    rw [sub300, wsHead_sub500, if_pos h2]
    rw [pauseInsertionSpec, if_neg h1, if_pos h2]
    rw [sub500_dropWhile, ih]
  | case4 c rest h1 h2 ih =>
    rw [pauseInsertionSpec, if_neg h1, if_neg h2]
    rw [sub500, if_neg h1]
    rw [sub300, wsHead_sub500, if_neg h2]
    rw [ih]
/-! Store and strip lemmas. -/

theorem FS.read_write_self (fs : FS) (p : List Char) (b : List Nat) :
    (fs.write p b).read p = some b := by
  simp [FS.write, FS.read]

theorem FS.getsize_write_self (fs : FS) (p : List Char) (b : List Nat) :
    (fs.write p b).getsize p = some b.length := by
  simp [FS.getsize, FS.read_write_self]

theorem dropWhile_eq_self_of_not (p : Char → Bool) (l : List Char)
    (h : ∀ c ∈ l, p c = false) : l.dropWhile p = l := by
  cases l with
  | nil => rfl
  | cons c rest => exact List.dropWhile_cons_of_neg (by simp [h c (List.mem_cons_self c rest)])

/-- Stripping changes nothing when no character of the text is whitespace. -/
theorem pyStrip_eq_self (l : List Char) (h : ∀ c ∈ l, isPyWs c = false) :
    pyStrip l = l := by
  rw [pyStrip, dropWhile_eq_self_of_not isPyWs l h,
    dropWhile_eq_self_of_not isPyWs l.reverse (fun c hc => h c (List.mem_reverse.mp hc)),
    List.reverse_reverse]

theorem pyStrip_replicate_a (n : Nat) :
    pyStrip (List.replicate n 'a') = List.replicate n 'a' :=
  pyStrip_eq_self _ (fun c hc => by rw [List.eq_of_mem_replicate hc]; rfl)

/-! Shape lemmas for `generate_audio` and `generate_podcast`. -/

theorem generate_audio_calls (synth : SynthCall → SynthResult) (fs : FS)
    (ts text voice_id engine : List Char) (use_ssml : Bool) (rate pitch : List Char) :
    (generate_audio synth fs ts text voice_id engine use_ssml rate pitch).2.2 =
      [audioCall text voice_id engine use_ssml rate pitch] := by
  rw [generate_audio]
  cases h : synth (audioCall text voice_id engine use_ssml rate pitch) with
  | ok audio =>
    rw [audioCall] at h
    simp only [h, FS.getsize_write_self, audioCall]
  | err m =>
    rw [audioCall] at h
    simp only [h, audioCall]

theorem generate_audio_ok (fs : FS) (ts text voice_id engine : List Char)
    (use_ssml : Bool) (rate pitch : List Char) (audio : List Nat) :
    generate_audio (fun _ => SynthResult.ok audio) fs ts text voice_id engine
        use_ssml rate pitch =
      (GenAudioResult.ok (audioFilename voice_id ts) (audioPath voice_id ts) audio.length,
       fs.write (audioPath voice_id ts) audio,
       [audioCall text voice_id engine use_ssml rate pitch]) := by
  rw [generate_audio]
  simp only [audioFilename, audioPath, audioCall, FS.getsize_write_self]

theorem generate_podcast_valid (synth : SynthCall → SynthResult) (fs : FS)
    (ts : List Char) (data : GenRequest)
    (h1 : pyStrip (data.text.getD []) ≠ [])
    (h2 : (pyStrip (data.text.getD [])).length ≤ max_chars (data.engine.getD (("neural").data))) :
    generate_podcast synth fs ts data =
      (match generate_audio synth fs ts (pyStrip (data.text.getD []))
          (data.voice.getD (("Joanna").data)) (data.engine.getD (("neural").data))
          (data.useSSML.getD false) (data.rate.getD (("medium").data))
          (data.pitch.getD (("medium").data)) with
       | (GenAudioResult.ok filename _ size, fs2, calls) =>
         (Response.ok filename size (("/download/").data ++ filename), fs2, calls)
       | (GenAudioResult.fail m, fs2, calls) => (Response.serverError m, fs2, calls)) := by
  rw [generate_podcast]
  simp only [parse_request]
  rw [if_neg h1, if_neg (Nat.not_lt.mpr h2)]

/-! Claim theorems. -/

/-- C7: when fields are omitted from a generate request, the handler fills in
voice "Joanna", engine "neural", rate "medium", pitch "medium", and leaves
markup mode (useSSML) disabled, before any further processing. -/
theorem c7_request_defaults (t : Option (List Char)) :
    parse_request
        { text := t, voice := none, engine := none, useSSML := none,
          rate := none, pitch := none } =
      { text := pyStrip (t.getD []), voice_id := ("Joanna").data,
        engine := ("neural").data, use_ssml := false,
        rate := ("medium").data, pitch := ("medium").data } := rfl

/-- C4: a request whose text strips to nothing is rejected as `EmptyText`,
with the store untouched and no provider call, whatever the engine field and
the other fields hold. -/
theorem c4_empty_text_rejected (synth : SynthCall → SynthResult) (fs : FS)
    (ts : List Char) (data : GenRequest)
    (h : pyStrip (data.text.getD []) = []) :
    generate_podcast synth fs ts data = (Response.badRequest ApiError.EmptyText, fs, []) := by
  rw [generate_podcast]
  simp only [parse_request]
  rw [if_pos h]

/-- Witness for C4 at a whitespace-only text and engine "standard". -/
theorem c4_empty_text_rejected_witness :
    pyStrip ((" \t ").data) = [] ∧
    generate_podcast (fun _ => SynthResult.err []) ⟨[]⟩ []
        { text := some ((" \t ").data), voice := none,
          engine := some (("standard").data), useSSML := none,
          rate := none, pitch := none } =
      (Response.badRequest ApiError.EmptyText, ⟨[]⟩, []) :=
  ⟨by decide, c4_empty_text_rejected _ _ _ _ (by decide)⟩

/-- C8: on a successful synthesis call, the audio bytes are written to the
output path, the reported size is exactly the byte length of the returned
buffer, and reading the returned path back yields those bytes. -/
theorem c8_output_writer (fs : FS) (ts text voice_id engine : List Char)
    (use_ssml : Bool) (rate pitch : List Char) (audio : List Nat) :
    (generate_audio (fun _ => SynthResult.ok audio) fs ts text voice_id engine
        use_ssml rate pitch).1 =
      GenAudioResult.ok (audioFilename voice_id ts) (audioPath voice_id ts) audio.length ∧
    ((generate_audio (fun _ => SynthResult.ok audio) fs ts text voice_id engine
        use_ssml rate pitch).2.1).read (audioPath voice_id ts) = some audio := by
  rw [generate_audio_ok]
  exact ⟨rfl, FS.read_write_self fs _ audio⟩

/-- C5: a request that fails validation never reaches the provider: the web
handler issues no synthesis call on empty or over-long text, and the CLI
length gate likewise returns before any provider call. -/
theorem c5_no_provider_call_on_invalid (synth synth2 : SynthCall → SynthResult)
    (fs fs2 : FS) (ts : List Char) (data : GenRequest)
    (text2 out voice eng : List Char)
    (h1 : pyStrip (data.text.getD []) = [] ∨
      max_chars (data.engine.getD (("neural").data)) < (pyStrip (data.text.getD [])).length)
    (h2 : (if eng = ("neural").data then 3000 else 6000) < text2.length) :
    (generate_podcast synth fs ts data).2.2 = [] ∧
    (CLI.generate_audio synth2 fs2 text2 out voice eng).2.2 = [] := by
  constructor
  · rw [generate_podcast]
    simp only [parse_request]
    by_cases he : pyStrip (data.text.getD []) = []
    · rw [if_pos he]
    · rw [if_neg he, if_pos (h1.resolve_left he)]
  · rw [CLI.generate_audio]
    rw [if_pos h2]

/-- Witness for C5: a 3001-character text on the neural default rejected by
the web handler, and a 6001-character text on the standard engine rejected
by the CLI gate, with no provider call in either case. -/
theorem c5_no_provider_call_on_invalid_witness :
    (pyStrip ((some (List.replicate 3001 'a') : Option (List Char)).getD []) = [] ∨
      max_chars ((none : Option (List Char)).getD (("neural").data)) <
        (pyStrip ((some (List.replicate 3001 'a') : Option (List Char)).getD [])).length) ∧
    ((if ("standard").data = ("neural").data then 3000 else 6000) <
      (List.replicate 6001 'a').length) ∧
    (generate_podcast (fun _ => SynthResult.err []) ⟨[]⟩ []
        { text := some (List.replicate 3001 'a'), voice := none, engine := none,
          useSSML := none, rate := none, pitch := none }).2.2 = [] ∧
    (CLI.generate_audio (fun _ => SynthResult.err []) ⟨[]⟩ (List.replicate 6001 'a')
        [] [] (("standard").data)).2.2 = [] := by
  have h1 : pyStrip ((some (List.replicate 3001 'a') : Option (List Char)).getD []) = [] ∨
      max_chars ((none : Option (List Char)).getD (("neural").data)) <
        (pyStrip ((some (List.replicate 3001 'a') : Option (List Char)).getD [])).length := by
    refine Or.inr ?_
    simp only [Option.getD_some, Option.getD_none, pyStrip_replicate_a,
      List.length_replicate, max_chars]
    simp only [reduceIte]
    decide
  have h2 : (if ("standard").data = ("neural").data then 3000 else 6000) <
      (List.replicate 6001 'a').length := by
    simp only [List.length_replicate, reduceIte]
    decide
  have hmain := c5_no_provider_call_on_invalid (fun _ => SynthResult.err [])
    (fun _ => SynthResult.err []) ⟨[]⟩ ⟨[]⟩ []
    { text := some (List.replicate 3001 'a'), voice := none, engine := none,
      useSSML := none, rate := none, pitch := none }
    (List.replicate 6001 'a') [] [] (("standard").data) h1 h2
  exact ⟨h1, h2, hmain.1, hmain.2⟩

/-- C9: an engine string other than "neural" — including values that are
neither "neural" nor "standard" — gets the 6000-character standard limit,
and a request with such an engine and admissible text is never rejected:
there is no unknown-engine rejection. -/
theorem c9_unknown_engine_standard_limit (eng : List Char)
    (synth : SynthCall → SynthResult) (fs : FS)
    (ts t voice rate pitch : List Char) (uss : Bool)
    (h1 : eng ≠ ("neural").data)
    (h2 : pyStrip t ≠ [])
    (h3 : (pyStrip t).length ≤ 6000) :
    max_chars eng = 6000 ∧
    ∀ e, (generate_podcast synth fs ts
        { text := some t, voice := some voice, engine := some eng,
          useSSML := some uss, rate := some rate, pitch := some pitch }).1 ≠
      Response.badRequest e := by
  have hmax : max_chars eng = 6000 := by rw [max_chars, if_neg h1]
  refine ⟨hmax, fun e => ?_⟩
  rw [generate_podcast_valid _ _ _ _ (by exact h2) (by simp only [Option.getD_some]; omega)]
  rcases hga : generate_audio synth fs ts (pyStrip ((some t : Option (List Char)).getD []))
      ((some voice : Option (List Char)).getD (("Joanna").data))
      ((some eng : Option (List Char)).getD (("neural").data))
      ((some uss : Option Bool).getD false)
      ((some rate : Option (List Char)).getD (("medium").data))
      ((some pitch : Option (List Char)).getD (("medium").data)) with
    ⟨res, fs2, calls⟩
  cases res <;> simp

/-- Witness for C9 at the unrecognized engine string "mystery". -/
theorem c9_unknown_engine_standard_limit_witness :
    ("mystery").data ≠ ("neural").data ∧
    pyStrip (("hi there").data) ≠ [] ∧
    (pyStrip (("hi there").data)).length ≤ 6000 ∧
    (max_chars (("mystery").data) = 6000 ∧
      ∀ e, (generate_podcast (fun _ => SynthResult.err []) ⟨[]⟩ []
          { text := some (("hi there").data), voice := some (("Joanna").data),
            engine := some (("mystery").data), useSSML := some false,
            rate := some (("medium").data), pitch := some (("medium").data) }).1 ≠
        Response.badRequest e) :=
  ⟨by decide, by decide, by decide,
    c9_unknown_engine_standard_limit _ _ _ _ _ _ _ _ false
      (by decide) (by decide) (by decide)⟩

theorem dropWhile_replicate_append (p : Char → Bool) (n : Nat) (a : Char)
    (s : List Char) (hp : p a = false) (hn : n ≠ 0) :
    (List.replicate n a ++ s).dropWhile p = List.replicate n a ++ s := by
  cases n with
  | zero => exact absurd rfl hn
  | succ m =>
    rw [List.replicate_succ, List.cons_append]
    exact List.dropWhile_cons_of_neg (by simp [hp])

/-- Stripping a text of the form one space, then n letters, then one space,
leaves exactly the letters. -/
theorem pyStrip_sandwich (n : Nat) (hn : n ≠ 0) :
    pyStrip (' ' :: (List.replicate n 'a' ++ [' '])) = List.replicate n 'a' := by
  rw [pyStrip, List.dropWhile_cons_of_pos (by rfl)]
  rw [dropWhile_replicate_append isPyWs n 'a' [' '] rfl hn]
  rw [List.reverse_append, List.reverse_replicate]
  simp only [List.reverse_cons, List.reverse_nil, List.nil_append, List.singleton_append]
  rw [List.dropWhile_cons_of_pos (by rfl)]
  have := dropWhile_replicate_append isPyWs n 'a' [] rfl hn
  rw [List.append_nil] at this
  rw [this, List.reverse_replicate]

theorem generate_podcast_too_long (synth : SynthCall → SynthResult) (fs : FS)
    (ts : List Char) (data : GenRequest)
    (h1 : pyStrip (data.text.getD []) ≠ [])
    (h2 : max_chars (data.engine.getD (("neural").data)) < (pyStrip (data.text.getD [])).length) :
    generate_podcast synth fs ts data =
      (Response.badRequest
        (ApiError.TextTooLong (max_chars (data.engine.getD (("neural").data)))
          (data.engine.getD (("neural").data))), fs, []) := by
  rw [generate_podcast]
  simp only [parse_request]
  rw [if_neg h1, if_pos h2]

/-- C3: a 3000-character text passes validation on the neural engine (a
synthesis call is issued), a 3001-character text is rejected as TextTooLong
with the neural limit 3000, and a 6000-character text passes on the
standard engine. -/
theorem c3_length_limits (synth : SynthCall → SynthResult) (fs : FS) (ts : List Char) :
    (generate_podcast synth fs ts
        { text := some (List.replicate 3000 'a'), voice := none,
          engine := some (("neural").data), useSSML := none,
          rate := none, pitch := none }).2.2 =
      [audioCall (List.replicate 3000 'a') (("Joanna").data) (("neural").data)
        false (("medium").data) (("medium").data)] ∧
    (generate_podcast synth fs ts
        { text := some (List.replicate 3001 'a'), voice := none,
          engine := some (("neural").data), useSSML := none,
          rate := none, pitch := none }).1 =
      Response.badRequest (ApiError.TextTooLong 3000 (("neural").data)) ∧
    (generate_podcast synth fs ts
        { text := some (List.replicate 6000 'a'), voice := none,
          engine := some (("standard").data), useSSML := none,
          rate := none, pitch := none }).2.2 =
      [audioCall (List.replicate 6000 'a') (("Joanna").data) (("standard").data)
        false (("medium").data) (("medium").data)] := by
  have hmaxn : max_chars (("neural").data) = 3000 := by rw [max_chars, if_pos rfl]
  have hmaxs : max_chars (("standard").data) = 6000 := by
    rw [max_chars, if_neg (by decide)]
  refine ⟨?_, ?_, ?_⟩
  · have hne : pyStrip ((some (List.replicate 3000 'a') : Option (List Char)).getD []) ≠ [] := by
      rw [Option.getD_some, pyStrip_replicate_a]
      simp only [ne_eq, List.replicate_eq_nil_iff]
      decide
    have hle : (pyStrip ((some (List.replicate 3000 'a') : Option (List Char)).getD [])).length ≤
        max_chars ((some (("neural").data) : Option (List Char)).getD (("neural").data)) := by
      rw [Option.getD_some, Option.getD_some, pyStrip_replicate_a,
        List.length_replicate, hmaxn]
    rw [generate_podcast_valid synth fs ts
      { text := some (List.replicate 3000 'a'), voice := none,
        engine := some (("neural").data), useSSML := none,
        rate := none, pitch := none } hne hle]
    rcases hga : generate_audio synth fs ts
        (pyStrip ((some (List.replicate 3000 'a') : Option (List Char)).getD []))
        ((none : Option (List Char)).getD (("Joanna").data))
        ((some (("neural").data) : Option (List Char)).getD (("neural").data))
        ((none : Option Bool).getD false)
        ((none : Option (List Char)).getD (("medium").data))
        ((none : Option (List Char)).getD (("medium").data)) with
      ⟨res, fs2, calls⟩
    have hc := generate_audio_calls synth fs ts
      (pyStrip ((some (List.replicate 3000 'a') : Option (List Char)).getD []))
      ((none : Option (List Char)).getD (("Joanna").data))
      ((some (("neural").data) : Option (List Char)).getD (("neural").data))
      ((none : Option Bool).getD false)
      ((none : Option (List Char)).getD (("medium").data))
      ((none : Option (List Char)).getD (("medium").data))
    rw [hga] at hc
    rw [Option.getD_some, Option.getD_some, Option.getD_none, Option.getD_none,
      Option.getD_none, pyStrip_replicate_a] at hc
    cases res <;> exact hc
  · have hne : pyStrip ((some (List.replicate 3001 'a') : Option (List Char)).getD []) ≠ [] := by
      rw [Option.getD_some, pyStrip_replicate_a]
      simp only [ne_eq, List.replicate_eq_nil_iff]
      decide
    have hgt : max_chars ((some (("neural").data) : Option (List Char)).getD (("neural").data)) <
        (pyStrip ((some (List.replicate 3001 'a') : Option (List Char)).getD [])).length := by
      rw [Option.getD_some, Option.getD_some, pyStrip_replicate_a,
        List.length_replicate, hmaxn]
      decide
    rw [generate_podcast_too_long synth fs ts
      { text := some (List.replicate 3001 'a'), voice := none,
        engine := some (("neural").data), useSSML := none,
        rate := none, pitch := none } hne hgt]
    rw [Option.getD_some, hmaxn]
  · have hne : pyStrip ((some (List.replicate 6000 'a') : Option (List Char)).getD []) ≠ [] := by
      rw [Option.getD_some, pyStrip_replicate_a]
      simp only [ne_eq, List.replicate_eq_nil_iff]
      decide
    have hle : (pyStrip ((some (List.replicate 6000 'a') : Option (List Char)).getD [])).length ≤
        max_chars ((some (("standard").data) : Option (List Char)).getD (("neural").data)) := by
      rw [Option.getD_some, Option.getD_some, pyStrip_replicate_a,
        List.length_replicate, hmaxs]
    rw [generate_podcast_valid synth fs ts
      { text := some (List.replicate 6000 'a'), voice := none,
        engine := some (("standard").data), useSSML := none,
        rate := none, pitch := none } hne hle]
    rcases hga : generate_audio synth fs ts
        (pyStrip ((some (List.replicate 6000 'a') : Option (List Char)).getD []))
        ((none : Option (List Char)).getD (("Joanna").data))
        ((some (("standard").data) : Option (List Char)).getD (("neural").data))
        ((none : Option Bool).getD false)
        ((none : Option (List Char)).getD (("medium").data))
        ((none : Option (List Char)).getD (("medium").data)) with
      ⟨res, fs2, calls⟩
    have hc := generate_audio_calls synth fs ts
      (pyStrip ((some (List.replicate 6000 'a') : Option (List Char)).getD []))
      ((none : Option (List Char)).getD (("Joanna").data))
      ((some (("standard").data) : Option (List Char)).getD (("neural").data))
      ((none : Option Bool).getD false)
      ((none : Option (List Char)).getD (("medium").data))
      ((none : Option (List Char)).getD (("medium").data))
    rw [hga] at hc
    rw [Option.getD_some, Option.getD_some, Option.getD_none, Option.getD_none,
      Option.getD_none, pyStrip_replicate_a] at hc
    cases res <;> exact hc

theorem generate_podcast_call_on_valid (synth : SynthCall → SynthResult) (fs : FS)
    (ts t voice eng rate pitch : List Char) (uss : Bool)
    (h1 : pyStrip t ≠ [])
    (h2 : (pyStrip t).length ≤ max_chars eng) :
    (generate_podcast synth fs ts
        { text := some t, voice := some voice, engine := some eng,
          useSSML := some uss, rate := some rate, pitch := some pitch }).2.2 =
      [audioCall (pyStrip t) voice eng uss rate pitch] := by
  rw [generate_podcast_valid synth fs ts
    { text := some t, voice := some voice, engine := some eng,
      useSSML := some uss, rate := some rate, pitch := some pitch }
    (by rw [Option.getD_some]; exact h1) (by rw [Option.getD_some, Option.getD_some]; exact h2)]
  rcases hga : generate_audio synth fs ts
      (pyStrip ((some t : Option (List Char)).getD []))
      ((some voice : Option (List Char)).getD (("Joanna").data))
      ((some eng : Option (List Char)).getD (("neural").data))
      ((some uss : Option Bool).getD false)
      ((some rate : Option (List Char)).getD (("medium").data))
      ((some pitch : Option (List Char)).getD (("medium").data)) with
    ⟨res, fs2, calls⟩
  have hc := generate_audio_calls synth fs ts
    (pyStrip ((some t : Option (List Char)).getD []))
    ((some voice : Option (List Char)).getD (("Joanna").data))
    ((some eng : Option (List Char)).getD (("neural").data))
    ((some uss : Option Bool).getD false)
    ((some rate : Option (List Char)).getD (("medium").data))
    ((some pitch : Option (List Char)).getD (("medium").data))
  rw [hga] at hc
  rw [Option.getD_some, Option.getD_some, Option.getD_some, Option.getD_some,
    Option.getD_some, Option.getD_some] at hc
  cases res <;> exact hc

/-- C10: the web handler strips the submitted text before validating and
synthesizing: whenever the stripped text is non-empty and within the
engine's limit, the one synthesis call carries exactly the stripped text
(SSML built from it when markup mode is on), regardless of how much
surrounding whitespace the raw text had. -/
theorem c10_strip_before_checks (synth : SynthCall → SynthResult) (fs : FS)
    (ts t voice eng rate pitch : List Char) (uss : Bool)
    (h1 : pyStrip t ≠ [])
    (h2 : (pyStrip t).length ≤ max_chars eng) :
    (generate_podcast synth fs ts
        { text := some t, voice := some voice, engine := some eng,
          useSSML := some uss, rate := some rate, pitch := some pitch }).2.2 =
      [audioCall (pyStrip t) voice eng uss rate pitch] :=
  generate_podcast_call_on_valid synth fs ts t voice eng rate pitch uss h1 h2

/-- Witness for C10: a text of raw length 3002 — over the neural limit only
because of its leading and trailing space — is accepted, and the issued
call carries the stripped 3000-character text. -/
theorem c10_strip_before_checks_witness :
    (' ' :: (List.replicate 3000 'a' ++ [' '])).length = 3002 ∧
    pyStrip (' ' :: (List.replicate 3000 'a' ++ [' '])) ≠ [] ∧
    (pyStrip (' ' :: (List.replicate 3000 'a' ++ [' ']))).length ≤ max_chars (("neural").data) ∧
    (generate_podcast (fun _ => SynthResult.err []) ⟨[]⟩ []
        { text := some (' ' :: (List.replicate 3000 'a' ++ [' '])),
          voice := some (("Joanna").data), engine := some (("neural").data),
          useSSML := some false, rate := some (("medium").data),
          pitch := some (("medium").data) }).2.2 =
      [audioCall (pyStrip (' ' :: (List.replicate 3000 'a' ++ [' '])))
        (("Joanna").data) (("neural").data) false (("medium").data) (("medium").data)] := by
  have hlen : (' ' :: (List.replicate 3000 'a' ++ [' '])).length = 3002 := by
    rw [List.length_cons, List.length_append, List.length_replicate]
    decide
  have h1 : pyStrip (' ' :: (List.replicate 3000 'a' ++ [' '])) ≠ [] := by
    rw [pyStrip_sandwich 3000 (by decide)]
    simp only [ne_eq, List.replicate_eq_nil_iff]
    decide
  have h2 : (pyStrip (' ' :: (List.replicate 3000 'a' ++ [' ']))).length ≤
      max_chars (("neural").data) := by
    rw [pyStrip_sandwich 3000 (by decide), List.length_replicate, max_chars, if_pos rfl]
  exact ⟨hlen, h1, h2,
    c10_strip_before_checks (fun _ => SynthResult.err []) ⟨[]⟩ []
      (' ' :: (List.replicate 3000 'a' ++ [' ']))
      (("Joanna").data) (("neural").data) (("medium").data) (("medium").data) false h1 h2⟩

/-- Evaluation of the markup builder on the stripped scenario text: the
terminal period of "Hello world." is not followed by whitespace, so the
sentence rule never fires and no pause marker is emitted. -/
theorem hello_world_markup :
    create_ssml_with_prosody (("Hello world.").data) (("medium").data) (("medium").data) =
      ("<speak><prosody rate=\"medium\" pitch=\"medium\">Hello world.</prosody></speak>").data := by
  simp [create_ssml_with_prosody, ssml_wrapper, add_ssml_pauses, sub500, sub300,
    wsHead, isPyWs, isSentenceEnd, isComma, br500, br300]

/-- Counterexample to C1 as stated: in the claimed end-to-end scenario the
markup string handed to the adapter is not the claimed string with a 500ms
break before the closing prosody tag (the text is stripped and its final
period is followed by nothing, so no break is inserted). -/
theorem c1_claimed_markup_refuted :
    ((generate_podcast (fun _ => SynthResult.ok []) ⟨[]⟩ []
        { text := some (("Hello world.").data), voice := some (("Joanna").data),
          engine := some (("neural").data), useSSML := some true,
          rate := none, pitch := none }).2.2).map SynthCall.Text ≠
      [("<speak><prosody rate=\"medium\" pitch=\"medium\">Hello world.<break time=\"500ms\"/> </prosody></speak>").data] := by
  have hval : ((generate_podcast (fun _ => SynthResult.ok []) ⟨[]⟩ []
      { text := some (("Hello world.").data), voice := some (("Joanna").data),
        engine := some (("neural").data), useSSML := some true,
        rate := none, pitch := none }).2.2).map SynthCall.Text =
      [("<speak><prosody rate=\"medium\" pitch=\"medium\">Hello world.</prosody></speak>").data] := by
    rw [← hello_world_markup]
    rfl
  rw [hval]
  decide

/-- C1 as amended: in the end-to-end scenario (text "Hello world.", voice
"Joanna", engine neural, useSSML on), the markup string passed to the
adapter is the prosody-wrapped text with no break marker — the stripped
text has no whitespace after its final period — and on adapter success the
response is the success payload whose downloadUrl points at the generated
filename. -/
theorem c1_scenario_amended (fs : FS) (ts : List Char) (audio : List Nat) :
    generate_podcast (fun _ => SynthResult.ok audio) fs ts
        { text := some (("Hello world.").data), voice := some (("Joanna").data),
          engine := some (("neural").data), useSSML := some true,
          rate := none, pitch := none } =
      (Response.ok (audioFilename (("Joanna").data) ts) audio.length
          (("/download/").data ++ audioFilename (("Joanna").data) ts),
       fs.write (audioPath (("Joanna").data) ts) audio,
       [{ Text := ("<speak><prosody rate=\"medium\" pitch=\"medium\">Hello world.</prosody></speak>").data,
          TextType := some (("ssml").data), OutputFormat := ("mp3").data,
          VoiceId := ("Joanna").data, Engine := ("neural").data }]) := by
  rw [generate_podcast_valid (fun _ => SynthResult.ok audio) fs ts
    { text := some (("Hello world.").data), voice := some (("Joanna").data),
      engine := some (("neural").data), useSSML := some true,
      rate := none, pitch := none }
    (by rw [Option.getD_some]; decide) (by rw [Option.getD_some, Option.getD_some]; decide)]
  rw [generate_audio_ok]
  rw [← hello_world_markup]
  rfl

/-- Evaluation of the markup builder on a text with a double space after the
period: the two spaces collapse into the single space of the replacement. -/
theorem markup_two_spaces :
    create_ssml_with_prosody (("a.  b").data) (("medium").data) (("medium").data) =
      ("<speak><prosody rate=\"medium\" pitch=\"medium\">a.<break time=\"500ms\"/> b</prosody></speak>").data := by
  simp [create_ssml_with_prosody, ssml_wrapper, add_ssml_pauses, sub500, sub300,
    wsHead, isPyWs, isSentenceEnd, isComma, br500, br300]

/-- Counterexample to C2 as stated: on the text "a.  b" the builder's output
differs from the root-wrapped prosody element whose content is the text with
markers merely inserted — the code also replaces the whitespace run after
the period by a single space, so the second space is lost. -/
theorem c2_insertion_only_refuted :
    create_ssml_with_prosody (("a.  b").data) (("medium").data) (("medium").data) ≠
      ssml_wrapper (("<prosody rate=\"medium\" pitch=\"medium\">").data ++
        pauseInsertionClaim (("a.  b").data) ++ ("</prosody>").data) := by
  rw [markup_two_spaces]
  decide

/-- C2 as amended: for every text, rate and pitch, the builder's output is
the root element wrapping the prosody directive with the requested rate and
pitch, whose content is the text transformed by the single-pass rule: one
500ms marker after each sentence-terminal punctuation mark followed by
whitespace and one 300ms marker after each comma followed by whitespace,
with each such whitespace run replaced by a single space after the marker,
and no other markers introduced. -/
theorem c2_markup_builder_amended (t rate pitch : List Char) :
    create_ssml_with_prosody t rate pitch =
      ssml_wrapper (("<prosody rate=\"").data ++ rate ++ ("\" pitch=\"").data ++ pitch
        ++ ("\">").data ++ pauseInsertionSpec t ++ ("</prosody>").data) := by
  rw [create_ssml_with_prosody, add_ssml_pauses_eq_spec]

/-- C6: the markup builder is not idempotent: applied to its own output it
wraps a fresh root and prosody element around text that still begins with
the previous root-and-prosody opening — the existing wrapping is neither
detected nor deduplicated. -/
theorem c6_not_idempotent (t rate pitch : List Char) :
    ∃ rest, create_ssml_with_prosody (create_ssml_with_prosody t rate pitch) rate pitch =
      ("<speak><prosody rate=\"").data ++ rate ++ ("\" pitch=\"").data ++ pitch
        ++ ("\">").data ++ ("<speak><prosody rate=\"").data ++ rest := by
  have hX : create_ssml_with_prosody t rate pitch =
      ("<speak><prosody rate=\"").data ++ (rate ++ (("\" pitch=\"").data ++ (pitch
        ++ (("\">").data ++ (add_ssml_pauses t
        ++ (("</prosody>").data ++ ("</speak>").data)))))) := by
    rw [create_ssml_with_prosody, ssml_wrapper]
    simp only [List.append_assoc]
    rfl
  rw [hX]
  set W := rate ++ (("\" pitch=\"").data ++ (pitch ++ (("\">").data ++ (add_ssml_pauses t
    ++ (("</prosody>").data ++ ("</speak>").data)))))
  refine ⟨sub300 (sub500 W) ++ (("</prosody>").data ++ ("</speak>").data), ?_⟩
  rw [create_ssml_with_prosody, ssml_wrapper, add_ssml_pauses]
  rw [sub500_append_of_no_sentenceEnd (("<speak><prosody rate=\"").data) W (by decide)]
  rw [sub300_append_of_no_comma (("<speak><prosody rate=\"").data) (sub500 W) (by decide)]
  simp only [List.append_assoc]
  rfl
